import Mathlib

/-!
A shallow embedding of lis.py, a small Scheme interpreter written in Python.

The embedding follows the Python source line by line:

* Python exceptions are modelled by the inductive type `Err`; fallible
  operations return `Except Err`.
* Python `dict` objects (used by the `Env` class) are modelled as
  association lists with unique keys; `Env` instances are mutable shared
  objects in Python, so the environment chain lives in an explicit store
  (a list of frames addressed by index) that is threaded through
  `evaluate`.
* Machine integers are Lean `Int` (Python integers are unbounded).
* Inexact (float) numerals are carried symbolically as their source text:
  floating point arithmetic is outside the embedding, and every operation
  that would have to compute with a float returns the distinguished error
  `Err.notModeled`.  No statement proved below depends on float
  arithmetic.
* Recursion in the interpreter is modelled with an explicit fuel
  parameter; running out of fuel is the distinguished error
  `Err.outOfFuel`, which no theorem below equates with program behaviour.
-/

namespace Lispy

/-- Python exceptions that the interpreter can raise, plus the two
distinguished markers of the embedding (`notModeled` for float arithmetic
and similar host behaviour left outside the model, `outOfFuel` for fuel
exhaustion). -/
inductive Err where
  | syntaxError : String → Err
  | indexError : Err
  | keyError : Err
  | attributeError : String → Err
  | valueError : Err
  | typeError : String → Err
  | zeroDivisionError : Err
  | notModeled : String → Err
  | outOfFuel : Err
deriving Repr, DecidableEq

/-- Discriminates the `SyntaxError` kind from every other error kind. -/
def Err.isSyntaxKind : Err → Bool
  | .syntaxError _ => true
  | _ => false

/-- Extracts the message string carried by an error, for errors that carry
one. -/
def Err.message : Err → Option String
  | .syntaxError m => some m
  | .attributeError m => some m
  | .typeError m => some m
  | .notModeled m => some m
  | _ => Option.none

/-- The names of the native procedures installed by standard_env, one tag
per distinct host function stored in the table (op.add backs both + and
append, so both map to `.add`). -/
inductive Builtin where
  | add | sub | mul | div
  | gt | lt | ge | le | eqOp
  | absOp | applyOp | beginOp
  | car | cdr | cons
  | isOp | equalOp | lengthOp
  | listOp | isListOp | mapOp
  | maxOp | minOp | notOp
  | isNullOp | isNumberOp | isProcedureOp
  | roundOp | isSymbolOp
  | sqrt | sin | cos | tan | expOp | log
  | floorOp | ceilOp | powOp | fabs
deriving Repr, DecidableEq, BEq

/-- Runtime values of the interpreter.  The Python source uses host
values directly: `Symbol = str`, `List = list`, `Number = (int, float)`;
procedures are either instances of the `Procedure` class (constructor
arguments params, body and the captured environment, here the index of
the captured frame in the store) or native callables from standard_env.
`papply` models the object returned by functools.partial (installed as
the builtin apply), and `mapObj` models the lazy iterator returned by the
builtin map.  `bool` and `none` model the Python values True/False and
None, which arise from comparisons and from special forms that fall off
the end of the dispatch (define, set!). -/
inductive Value where
  | int : Int → Value
  | float : String → Value
  | sym : String → Value
  | list : List Value → Value
  | bool : Bool → Value
  | none : Value
  | builtin : Builtin → Value
  | closure : Value → Value → Nat → Value
  | papply : Value → List Value → Value
  | mapObj : Value → List Value → Value
deriving Repr

/-- Python == between two values of which neither is a list (the callers
below only ever compare such pairs: dictionary keys are hashable, hence
never lists).  True compares equal to 1 and False to 0 because bool is a
subclass of int.  Two float literals are compared by their source text,
which identifies fewer values than Python (1.0 == 1.00 there); no
statement below compares floats.  Objects without an __eq__ of their own
(Procedure instances, partial objects, map objects) compare by identity
in Python; the embedding erases identity and makes distinct such values
compare unequal, which is never exercised below. -/
def pyAtomEq : Value → Value → Bool
  | .int a, .int b => a == b
  | .int a, .bool b => a == (if b then 1 else 0)
  | .bool a, .int b => (if a then 1 else 0) == b
  | .bool a, .bool b => a == b
  | .float a, .float b => a == b
  | .sym a, .sym b => a == b
  | .none, .none => true
  | .builtin a, .builtin b => a == b
  | _, _ => false

/-- Python == between an arbitrary value and a string constant, the
comparison the evaluator performs on x[0] to recognise special forms: it
is True exactly when the value is that string. -/
def pyEqStr (v : Value) (s : String) : Bool :=
  match v with
  | .sym t => t = s
  | _ => false

/-- Deep Python == (the host function behind the builtins equal? and =),
with a fuel parameter bounding the recursion depth; `pyEqDeep` below
instantiates the fuel with a bound that always suffices. -/
def pyEqFuel : Nat → Value → Value → Bool
  | 0, _, _ => false
  | _ + 1, .list [], .list [] => true
  | fuel + 1, .list (x :: xs), .list (y :: ys) =>
      pyEqFuel fuel x y && pyEqFuel fuel (.list xs) (.list ys)
  | _ + 1, .list _, .list _ => false
  | _ + 1, a, b => pyAtomEq a b

mutual

/-- Structural size of a value, used only to pick a sufficient fuel for
the deep operations below. -/
def vsize : Value → Nat
  | .int _ => 1
  | .float _ => 1
  | .sym _ => 1
  | .bool _ => 1
  | .none => 1
  | .builtin _ => 1
  | .list l => 1 + vsizeList l
  | .closure p b _ => 1 + vsize p + vsize b
  | .papply f pre => 1 + vsize f + vsizeList pre
  | .mapObj f its => 1 + vsize f + vsizeList its

/-- Structural size of a list of values. -/
def vsizeList : List Value → Nat
  | [] => 0
  | v :: vs => 1 + vsize v + vsizeList vs

end

/-- Deep Python == at a fuel that dominates the depth of both arguments. -/
def pyEqDeep (a b : Value) : Bool :=
  pyEqFuel (vsize a + vsize b + 1) a b

/-- Numeric value of a digit string. -/
def digitsToNat : List Char → Nat → Nat
  | [], acc => acc
  | c :: cs, acc => digitsToNat cs (acc * 10 + (c.toNat - '0'.toNat))

/-- Drops an optional leading sign character. -/
def stripSign : List Char → List Char
  | c :: rest => if c = '+' ∨ c = '-' then rest else c :: rest
  | [] => []

/-- Decimal decomposition of a float literal of the shapes the float
recogniser accepts: the mantissa digit string and the power of ten it is
scaled by, so that the denoted magnitude is digits * 10 ^ exponent.  The
special words inf, infinity and nan (in any letter case) yield none. -/
def floatLitParts (lit : String) : Option (Nat × Int) :=
  let body := stripSign lit.toList
  let low := body.map Char.toLower
  if low = "inf".toList ∨ low = "infinity".toList ∨ low = "nan".toList then
    Option.none
  else
    let (mant, ex) :=
      match body.splitOn 'e' with
      | [m, x] => (m, x)
      | _ =>
        match body.splitOn 'E' with
        | [m, x] => (m, x)
        | _ => (body, ([] : List Char))
    let exVal : Int :=
      match ex with
      | [] => 0
      | '+' :: ds => Int.ofNat (digitsToNat ds 0)
      | '-' :: ds => -Int.ofNat (digitsToNat ds 0)
      | ds => Int.ofNat (digitsToNat ds 0)
    match mant.splitOn '.' with
    | [whole, frac] =>
        some (digitsToNat (whole ++ frac) 0, exVal - Int.ofNat frac.length)
    | _ => some (digitsToNat mant 0, exVal)

/-- Whether a float literal denotes the IEEE double 0.0, the only falsy
float.  That holds exactly when the mantissa has no nonzero digit, or
the magnitude is at most 2 ^ (-1075) — half the smallest positive
denormal — which round-to-nearest-even (the rounding the float
constructor applies to a decimal literal) sends to zero; the comparison
digits * 10 ^ e <= 2 ^ (-1075) is decided exactly in integers as
digits * 2 ^ 1075 <= 10 ^ (-e).  The special words inf, infinity and
nan are nonzero values. -/
def floatLitIsZero (lit : String) : Bool :=
  match floatLitParts lit with
  | Option.none => false
  | some (m, e) =>
      m == 0 || (decide (e < 0) && decide (m * 2 ^ 1075 ≤ 10 ^ (-e).toNat))

/-- Python truthiness, the host notion the evaluator applies to the test
of an if form: None, False, zero, the empty string and the empty list are
false, everything else is true.  A float is false exactly when it is the
double 0.0, decided from the literal by `floatLitIsZero`: literals with a
zero mantissa and literals that underflow to zero are falsy, while inf
and nan are truthy. -/
def truthy : Value → Bool
  | .none => false
  | .bool b => b
  | .int n => n != 0
  | .float lit => !floatLitIsZero lit
  | .sym s => !s.isEmpty
  | .list l => !l.isEmpty
  | _ => true

/-- Python callable(), True for Procedure instances, native functions and
partial objects. -/
def isCallable : Value → Bool
  | .closure _ _ _ => true
  | .builtin _ => true
  | .papply _ _ => true
  | _ => false

/-- Python hashable(), which decides whether a value may be used as a
dictionary key: lists are the only unhashable runtime values here. -/
def hashable : Value → Bool
  | .list _ => false
  | _ => true

/-- Lookup in a Python dict modelled as an association list with unique
keys.  Key comparison is `pyAtomEq`: every stored key is hashable, hence
not a list, and callers check hashability of the probe first. -/
def dictLookup : List (Value × Value) → Value → Option Value
  | [], _ => Option.none
  | (k, v) :: rest, probe =>
      if pyAtomEq probe k then some v else dictLookup rest probe

/-- Insertion or overwrite in a Python dict: an existing equal key keeps
its place and gets the new value, a new key is appended. -/
def dictSet : List (Value × Value) → Value → Value → List (Value × Value)
  | [], k, v => [(k, v)]
  | (k0, v0) :: rest, k, v =>
      if pyAtomEq k k0 then (k0, v) :: rest else (k0, v0) :: dictSet rest k v

/-- Python membership test var in dict, which raises TypeError when the
probe is unhashable. -/
def pyContains (d : List (Value × Value)) (probe : Value) : Except Err Bool :=
  if hashable probe then .ok (dictLookup d probe).isSome
  else .error (.typeError "unhashable type")

/-- One Env instance of the Python source: a dict of bindings plus the
outer pointer, which is None for the global frame.  Frames are mutable
shared objects in Python, so they live in a store (a `List Frame`)
addressed by index. -/
structure Frame where
  bindings : List (Value × Value)
  outer : Option Nat
deriving Repr

/-- The message of the AttributeError raised when Env.find reaches the
end of the chain: find is called on the outer pointer None. -/
def findNoneMsg : String := "NoneType object has no attribute find"

/-- Env.find from the source: return self if (var in self) else
self.outer.find(var).  When the chain is exhausted the call
self.outer.find(var) is an attribute access on None, so Python raises
AttributeError rather than any lookup error; the symbol searched for does
not appear in that error.  The result is the index of the owning frame.
Fuel bounds the chain walk. -/
def find (s : List Frame) : Nat → Nat → Value → Except Err Nat
  | 0, _, _ => .error .outOfFuel
  | fuel + 1, envId, var =>
    match s[envId]? with
    | Option.none => .error .indexError
    | some fr => do
        let present ← pyContains fr.bindings var
        if present then .ok envId
        else
          match fr.outer with
          | Option.none => .error (.attributeError findNoneMsg)
          | some o => find s fuel o var

/-- Holds when the variable is absent from every frame of the chain that
starts at envId, the chain is well formed (every index valid) and ends at
an outer pointer None within the given fuel. -/
def chainAbsent (s : List Frame) : Nat → Nat → Value → Bool
  | 0, _, _ => false
  | fuel + 1, envId, var =>
    match s[envId]? with
    | Option.none => false
    | some fr =>
        (dictLookup fr.bindings var).isNone &&
          match fr.outer with
          | Option.none => true
          | some o => chainAbsent s fuel o var

/-- Subscript read env.find(x)[x]: the owning frame is known to contain
the key, so the KeyError branch is unreachable. -/
def getItem (s : List Frame) (fid : Nat) (k : Value) : Except Err Value :=
  match s[fid]? with
  | Option.none => .error .indexError
  | some fr =>
    match dictLookup fr.bindings k with
    | some v => .ok v
    | Option.none => .error .keyError

/-- Subscript write env[var] = val on the frame at index fid.  Python
hashes the key first, so an unhashable key raises TypeError. -/
def setItem (s : List Frame) (fid : Nat) (k v : Value) :
    Except Err (List Frame) :=
  if hashable k then
    match s[fid]? with
    | Option.none => .error .indexError
    | some fr => .ok (s.set fid ⟨dictSet fr.bindings k v, fr.outer⟩)
  else .error (.typeError "unhashable type")

/-!  Parsing: parse, tokenize and read_from_tokens.  -/

/-- Worker for `tokenize`.  The source computes
string.replace of the parenthesis characters by space-padded copies
followed by split(), which splits on runs of whitespace and drops empty
pieces; character by character that means each parenthesis is its own
token and every maximal run of other non-whitespace characters is a
token.  The accumulator holds the current run, most recent character
first. -/
def tokenizeChars : List Char → List Char → List String
  | [], acc => if acc.isEmpty then [] else [String.mk acc.reverse]
  | c :: cs, acc =>
    if c = '(' ∨ c = ')' then
      (if acc.isEmpty then [] else [String.mk acc.reverse]) ++
        [String.mk [c]] ++ tokenizeChars cs []
    else if c.isWhitespace then
      (if acc.isEmpty then [] else [String.mk acc.reverse]) ++
        tokenizeChars cs []
    else
      tokenizeChars cs (c :: acc)

/-- tokenize from the source: converts a string into a list of tokens. -/
def tokenize (s : String) : List String :=
  tokenizeChars s.toList []

/-- Recogniser for the tokens accepted by the Python int constructor: an
optional sign followed by at least one digit.  (Python additionally
accepts underscores between digits and non-ASCII digit characters;
no token below exercises those.) -/
def isIntToken (t : String) : Bool :=
  let cs := t.toList
  let body := match cs with
    | c :: rest => if c = '+' ∨ c = '-' then rest else cs
    | [] => []
  !body.isEmpty && body.all Char.isDigit

/-- Value of a token accepted by `isIntToken`. -/
def parseIntTok (t : String) : Int :=
  match t.toList with
  | '-' :: rest => -(Int.ofNat (digitsToNat rest 0))
  | '+' :: rest => Int.ofNat (digitsToNat rest 0)
  | cs => Int.ofNat (digitsToNat cs 0)

/-- Digit-sequence test used by the float recogniser. -/
def allDigits (cs : List Char) : Bool :=
  !cs.isEmpty && cs.all Char.isDigit

/-- Recogniser for the decimal part of a float token: digits.digits,
digits., .digits or digits. -/
def isFloatMantissa (cs : List Char) : Bool :=
  match cs.splitOn '.' with
  | [whole] => allDigits whole
  | [whole, frac] =>
      (allDigits whole && (frac.isEmpty || allDigits frac)) ||
        (whole.isEmpty && allDigits frac)
  | _ => false

/-- Recogniser for the tokens accepted by the Python float constructor:
an optional sign, then either a special word (inf, infinity, nan, in any
letter case) or a mantissa with an optional exponent part. -/
def isFloatToken (t : String) : Bool :=
  let cs := t.toList
  let body := match cs with
    | c :: rest => if c = '+' ∨ c = '-' then rest else cs
    | [] => []
  let low := body.map Char.toLower
  if low = "inf".toList ∨ low = "infinity".toList ∨ low = "nan".toList then
    true
  else
    match body.splitOn 'e', body.splitOn 'E' with
    | [m, ex], [_] => isFloatMantissa m &&
        (allDigits ex || (match ex with
          | c :: rest => (c = '+' ∨ c = '-') && allDigits rest
          | [] => false))
    | [_], [m, ex] => isFloatMantissa m &&
        (allDigits ex || (match ex with
          | c :: rest => (c = '+' ∨ c = '-') && allDigits rest
          | [] => false))
    | [m], [_] => isFloatMantissa m
    | _, _ => false

/-- atom from the source: numbers become numbers (int attempted first,
then float), every other token is a symbol.  Float values keep their
source text (see the module comment). -/
def atom (token : String) : Value :=
  if isIntToken token then .int (parseIntTok token)
  else if isFloatToken token then .float token
  else .sym token

/-- The message of the SyntaxError raised on an empty token sequence
(the source misspells EOF as E0F). -/
def eofMsg : String := "unexpected E0F while reading"

/-- The while-loop inside read_from_tokens that collects sub-expressions
until a close parenthesis.  Python re-checks tokens[0] before every
iteration; on an exhausted token list that subscript raises IndexError
(not SyntaxError — the E0F check only guards the entry of
read_from_tokens).  The reading of one sub-expression is supplied as the
function argument rd, which receives the whole remaining token list;
fuel bounds the iteration count. -/
def readLoopWith (rd : List String → Except Err (Value × List String)) :
    Nat → List String → List Value → Except Err (Value × List String)
  | 0, _, _ => .error .outOfFuel
  | fuel + 1, tokens, acc =>
    match tokens with
    | [] => .error .indexError
    | t :: rest =>
      if t = ")" then .ok (.list acc, rest)
      else do
        let (e, rest2) ← rd tokens
        readLoopWith rd fuel rest2 (acc ++ [e])

/-- read_from_tokens from the source: reads one expression from the front
of the token sequence.  An empty sequence at entry raises SyntaxError; a
close parenthesis with no matching opener raises SyntaxError; any other
token is an atom; an open parenthesis enters the collection loop. -/
def read_from_tokens : Nat → List String → Except Err (Value × List String)
  | 0, _ => .error .outOfFuel
  | fuel + 1, tokens =>
    match tokens with
    | [] => .error (.syntaxError eofMsg)
    | token :: rest =>
      if token = "(" then
        readLoopWith (fun ts => read_from_tokens fuel ts) fuel rest []
      else if token = ")" then .error (.syntaxError "unexpected )")
      else .ok (atom token, rest)

/-- parse from the source: reads one Scheme expression from a string.
Trailing tokens are ignored.  The fuel exceeds every chain of recursive
calls the token list can cause. -/
def parse (program : String) : Except Err Value :=
  (read_from_tokens ((tokenize program).length + 2)
      (tokenize program)).map Prod.fst

/-!  The builtin library installed by standard_env.  -/

/-- Reads an exact integer out of a value: bool is a subclass of int in
Python, so True and False act as 1 and 0 in arithmetic. -/
def asInt : Value → Option Int
  | .int n => some n
  | .bool b => some (if b then 1 else 0)
  | _ => Option.none

/-- Whether a value is one of the Python numeric kinds of this
interpreter (int, float, and bool as a subclass of int). -/
def numericV : Value → Bool
  | .int _ => true
  | .float _ => true
  | .bool _ => true
  | _ => false

/-- Python op.add.  Exact integer addition is computed; any arithmetic
that touches a float is left outside the model; strings and lists
concatenate; every other pairing raises TypeError. -/
def pyAdd (a b : Value) : Except Err Value :=
  match asInt a, asInt b with
  | some m, some n => .ok (.int (m + n))
  | _, _ =>
    if numericV a && numericV b then .error (.notModeled "float arithmetic")
    else match a, b with
      | .sym s, .sym t => .ok (.sym (s ++ t))
      | .list xs, .list ys => .ok (.list (xs ++ ys))
      | _, _ => .error (.typeError "unsupported operand type for add")

/-- Python op.sub. -/
def pySub (a b : Value) : Except Err Value :=
  match asInt a, asInt b with
  | some m, some n => .ok (.int (m - n))
  | _, _ =>
    if numericV a && numericV b then .error (.notModeled "float arithmetic")
    else .error (.typeError "unsupported operand type for sub")

/-- Sequence repetition s * n of Python, with negative counts giving the
empty sequence. -/
def seqRepeat (l : List Value) (n : Int) : List Value :=
  (List.replicate n.toNat l).flatten

/-- String repetition of Python. -/
def strRepeat (s : String) (n : Int) : String :=
  String.mk ((List.replicate n.toNat s.toList).flatten)

/-- Python op.mul, including sequence repetition by an integer. -/
def pyMul (a b : Value) : Except Err Value :=
  match asInt a, asInt b with
  | some m, some n => .ok (.int (m * n))
  | _, _ =>
    if numericV a && numericV b then .error (.notModeled "float arithmetic")
    else match a, b with
      | .sym s, .int n => .ok (.sym (strRepeat s n))
      | .int n, .sym s => .ok (.sym (strRepeat s n))
      | .list l, .int n => .ok (.list (seqRepeat l n))
      | .int n, .list l => .ok (.list (seqRepeat l n))
      | _, _ => .error (.typeError "unsupported operand type for mul")

/-- Python op.truediv.  True division always produces a float, so every
successful division is outside the model; division by an exact zero
raises ZeroDivisionError first. -/
def pyDiv (a b : Value) : Except Err Value :=
  if numericV a && numericV b then
    match asInt b with
    | some n => if n = 0 then .error .zeroDivisionError
                else .error (.notModeled "float arithmetic")
    | _ => .error (.notModeled "float arithmetic")
  else .error (.typeError "unsupported operand type for div")

/-- Lexicographic order on character lists, the order Python uses for
strings (code point by code point). -/
def charListLt : List Char → List Char → Bool
  | [], [] => false
  | [], _ :: _ => true
  | _ :: _, [] => false
  | a :: as, b :: bs => a < b || (a = b && charListLt as bs)

/-- Python < between two values of which neither is a list.  Mixed
numeric comparisons that involve a float are outside the model; any
comparison between unrelated kinds raises TypeError. -/
def pyAtomLt (a b : Value) : Except Err Bool :=
  match asInt a, asInt b with
  | some m, some n => .ok (decide (m < n))
  | _, _ =>
    if numericV a && numericV b then .error (.notModeled "float comparison")
    else match a, b with
      | .sym s, .sym t => .ok (charListLt s.toList t.toList)
      | _, _ => .error (.typeError "comparison not supported between instances")

/-- Python < including the element-wise order on lists, fuelled: Python
walks both lists, skipping equal elements, and compares the first
mismatching pair; a strict prefix is smaller. -/
def pyLtFuel : Nat → Value → Value → Except Err Bool
  | 0, _, _ => .error .outOfFuel
  | _ + 1, .list [], .list [] => .ok false
  | _ + 1, .list [], .list (_ :: _) => .ok true
  | _ + 1, .list (_ :: _), .list [] => .ok false
  | fuel + 1, .list (x :: xs), .list (y :: ys) =>
      if pyEqFuel fuel x y then pyLtFuel fuel (.list xs) (.list ys)
      else pyLtFuel fuel x y
  | _ + 1, a, b => pyAtomLt a b

/-- Python < at a fuel that dominates the depth of both arguments. -/
def pyLtDeep (a b : Value) : Except Err Bool :=
  pyLtFuel (vsize a + vsize b + 1) a b

/-- Python op.gt: for the builtin kinds of this interpreter a > b holds
exactly when b < a. -/
def pyGt (a b : Value) : Except Err Bool := pyLtDeep b a

/-- Python op.ge: on the total orders in play, a >= b is not (a < b). -/
def pyGe (a b : Value) : Except Err Bool := (pyLtDeep a b).map (!·)

/-- Python op.le: on the total orders in play, a <= b is not (b < a). -/
def pyLe (a b : Value) : Except Err Bool := (pyLtDeep b a).map (!·)

/-- Python op.is_ (the builtin eq?).  Identity of objects is erased by
the embedding; the cases below are the ones the language still
determines: values of different kinds are distinct objects, and None,
True, False and each native function exist once.  Identity between two
numbers, strings, lists or Procedure objects of the same kind depends on
object identity and is left outside the model. -/
def pyIs (a b : Value) : Except Err Bool :=
  match a, b with
  | .none, .none => .ok true
  | .bool x, .bool y => .ok (x == y)
  | .builtin x, .builtin y => .ok (x == y)
  | .int _, .int _ => .error (.notModeled "object identity")
  | .float _, .float _ => .error (.notModeled "object identity")
  | .sym _, .sym _ => .error (.notModeled "object identity")
  | .list _, .list _ => .error (.notModeled "object identity")
  | .closure _ _ _, .closure _ _ _ => .error (.notModeled "object identity")
  | .papply _ _, .papply _ _ => .error (.notModeled "object identity")
  | .mapObj _ _, .mapObj _ _ => .error (.notModeled "object identity")
  | _, _ => .ok false

/-- Fold used by the builtins max and min: keeps the current extremum
and replaces it when the comparison says the next item wins, exactly the
walk CPython performs. -/
def foldExtremum (wins : Value → Value → Except Err Bool) :
    Value → List Value → Except Err Value
  | best, [] => .ok best
  | best, x :: xs => do
      let b ← wins x best
      foldExtremum wins (if b then x else best) xs

/-- Largest character of a nonempty character list. -/
def maxChar : Char → List Char → Char
  | best, [] => best
  | best, c :: cs => maxChar (if best < c then c else best) cs

/-- Smallest character of a nonempty character list. -/
def minChar : Char → List Char → Char
  | best, [] => best
  | best, c :: cs => maxChar (if c < best then c else best) cs

/-- The builtins max and min: with one argument they iterate it (an empty
sequence raises ValueError), with several they compare the arguments. -/
def pyExtremum (wins : Value → Value → Except Err Bool)
    (charPick : Char → List Char → Char) (args : List Value) :
    Except Err Value :=
  match args with
  | [] => .error (.typeError "expected at least 1 argument")
  | [x] =>
    match x with
    | .list [] => .error .valueError
    | .list (h :: t) => foldExtremum wins h t
    | .sym s =>
      match s.toList with
      | [] => .error .valueError
      | c :: cs => .ok (.sym (String.mk [charPick c cs]))
    | .mapObj _ _ => .error (.notModeled "consuming a map iterator")
    | _ => .error (.typeError "object is not iterable")
  | a :: rest => foldExtremum wins a rest

/-- The native procedure table of standard_env, one case per entry,
with the exact argument-count behaviour of each host callable. -/
def applyBuiltin : Builtin → List Value → Except Err Value
  | .add, [a, b] => pyAdd a b
  | .add, _ => .error (.typeError "add expected 2 arguments")
  | .sub, [a, b] => pySub a b
  | .sub, _ => .error (.typeError "sub expected 2 arguments")
  | .mul, [a, b] => pyMul a b
  | .mul, _ => .error (.typeError "mul expected 2 arguments")
  | .div, [a, b] => pyDiv a b
  | .div, _ => .error (.typeError "div expected 2 arguments")
  | .gt, [a, b] => (pyGt a b).map Value.bool
  | .gt, _ => .error (.typeError "gt expected 2 arguments")
  | .lt, [a, b] => (pyLtDeep a b).map Value.bool
  | .lt, _ => .error (.typeError "lt expected 2 arguments")
  | .ge, [a, b] => (pyGe a b).map Value.bool
  | .ge, _ => .error (.typeError "ge expected 2 arguments")
  | .le, [a, b] => (pyLe a b).map Value.bool
  | .le, _ => .error (.typeError "le expected 2 arguments")
  | .eqOp, [a, b] => .ok (.bool (pyEqDeep a b))
  | .eqOp, _ => .error (.typeError "eq expected 2 arguments")
  | .absOp, [x] =>
    match x with
    | .int n => .ok (.int (if n < 0 then -n else n))
    | .bool b => .ok (.int (if b then 1 else 0))
    | .float _ => .error (.notModeled "float arithmetic")
    | _ => .error (.typeError "bad operand type for abs")
  | .absOp, _ => .error (.typeError "abs expected 1 argument")
  | .applyOp, [] => .error (.typeError "partial expected at least 1 argument")
  | .applyOp, f :: rest =>
    if isCallable f then .ok (.papply f rest)
    else .error (.typeError "the first argument must be callable")
  | .beginOp, args =>
    match args.getLast? with
    | some v => .ok v
    | Option.none => .error .indexError
  | .car, [x] =>
    match x with
    | .list (h :: _) => .ok h
    | .list [] => .error .indexError
    | .sym s =>
      match s.toList with
      | c :: _ => .ok (.sym (String.mk [c]))
      | [] => .error .indexError
    | _ => .error (.typeError "object is not subscriptable")
  | .car, _ => .error (.typeError "car expected 1 argument")
  | .cdr, [x] =>
    match x with
    | .list l => .ok (.list l.tail)
    | .sym s => .ok (.sym (String.mk s.toList.tail))
    | _ => .error (.typeError "object is not subscriptable")
  | .cdr, _ => .error (.typeError "cdr expected 1 argument")
  | .cons, [x, y] =>
    match y with
    | .list ys => .ok (.list (x :: ys))
    | _ => .error (.typeError "can only concatenate list to list")
  | .cons, _ => .error (.typeError "cons expected 2 arguments")
  | .isOp, [a, b] => (pyIs a b).map Value.bool
  | .isOp, _ => .error (.typeError "is expected 2 arguments")
  | .equalOp, [a, b] => .ok (.bool (pyEqDeep a b))
  | .equalOp, _ => .error (.typeError "eq expected 2 arguments")
  | .lengthOp, [x] =>
    match x with
    | .list l => .ok (.int l.length)
    | .sym s => .ok (.int s.length)
    | _ => .error (.typeError "object has no len")
  | .lengthOp, _ => .error (.typeError "len expected 1 argument")
  | .listOp, args => .ok (.list args)
  | .isListOp, [x] =>
    match x with
    | .list _ => .ok (.bool true)
    | _ => .ok (.bool false)
  | .isListOp, _ => .error (.typeError "list? expected 1 argument")
  | .mapOp, f :: it :: rest => .ok (.mapObj f (it :: rest))
  | .mapOp, _ => .error (.typeError "map must have at least two arguments")
  | .maxOp, args => pyExtremum pyGt maxChar args
  | .minOp, args => pyExtremum pyLtDeep minChar args
  | .notOp, [x] => .ok (.bool (!truthy x))
  | .notOp, _ => .error (.typeError "not expected 1 argument")
  | .isNullOp, [x] =>
    match x with
    | .list [] => .ok (.bool true)
    | _ => .ok (.bool false)
  | .isNullOp, _ => .error (.typeError "null? expected 1 argument")
  | .isNumberOp, [x] => .ok (.bool (numericV x))
  | .isNumberOp, _ => .error (.typeError "number? expected 1 argument")
  | .isProcedureOp, [x] => .ok (.bool (isCallable x))
  | .isProcedureOp, _ => .error (.typeError "procedure? expected 1 argument")
  | .roundOp, [x] =>
    match x with
    | .int n => .ok (.int n)
    | .bool b => .ok (.int (if b then 1 else 0))
    | .float _ => .error (.notModeled "float rounding")
    | _ => .error (.typeError "bad operand type for round")
  | .roundOp, [_, _] => .error (.notModeled "round with ndigits")
  | .roundOp, _ => .error (.typeError "round expected 1 or 2 arguments")
  | .isSymbolOp, [x] =>
    match x with
    | .sym _ => .ok (.bool true)
    | _ => .ok (.bool false)
  | .isSymbolOp, _ => .error (.typeError "symbol? expected 1 argument")
  | .floorOp, [x] =>
    match x with
    | .int n => .ok (.int n)
    | .bool b => .ok (.int (if b then 1 else 0))
    | .float _ => .error (.notModeled "float arithmetic")
    | _ => .error (.typeError "must be real number")
  | .floorOp, _ => .error (.typeError "floor expected 1 argument")
  | .ceilOp, [x] =>
    match x with
    | .int n => .ok (.int n)
    | .bool b => .ok (.int (if b then 1 else 0))
    | .float _ => .error (.notModeled "float arithmetic")
    | _ => .error (.typeError "must be real number")
  | .ceilOp, _ => .error (.typeError "ceil expected 1 argument")
  | .powOp, [a, b] =>
    if numericV a && numericV b then .error (.notModeled "float arithmetic")
    else .error (.typeError "must be real number")
  | .powOp, _ => .error (.typeError "pow expected 2 arguments")
  | .sqrt, [x] | .sin, [x] | .cos, [x] | .tan, [x]
  | .expOp, [x] | .log, [x] | .fabs, [x] =>
    if numericV x then .error (.notModeled "float arithmetic")
    else .error (.typeError "must be real number")
  | .sqrt, _ | .sin, _ | .cos, _ | .tan, _
  | .expOp, _ | .log, _ | .fabs, _ =>
    .error (.typeError "expected 1 argument")

/-!  Environments: standard_env and the Env constructor; the evaluator.  -/

/-- Python zip(parms, args) as Env.__init__ consumes it: a list of
parameter names pairs up with the argument list, TRUNCATING at the
shorter of the two (no arity check of any kind); a string iterates its
characters, each a one-character string; a non-iterable parameter object
raises TypeError.  The parameter position of a lambda form is parser
output, so only int, float, sym and list shapes can reach this point. -/
def pyZip : Value → List Value → Except Err (List (Value × Value))
  | .list ps, args => .ok (ps.zip args)
  | .sym s, args =>
      .ok ((s.toList.map (fun c => Value.sym (String.mk [c]))).zip args)
  | _, _ => .error (.typeError "zip argument is not iterable")

/-- dict update with a sequence of key-value pairs, checking hashability
of each key as Python does on insertion. -/
def dictUpdate : List (Value × Value) → List (Value × Value) →
    Except Err (List (Value × Value))
  | d, [] => .ok d
  | d, (k, v) :: rest =>
      if hashable k then dictUpdate (dictSet d k v) rest
      else .error (.typeError "unhashable type")

/-- Env.__init__ from the source: self.update(zip(parms, args)) builds
the bindings of a fresh call frame. -/
def zipBind (parms : Value) (args : List Value) :
    Except Err (List (Value × Value)) := do
  let pairs ← pyZip parms args
  dictUpdate [] pairs

/-- The argument-list comprehension of the application branch:
[evaluate(exp, env) for exp in x[1:]] evaluates left to right, threading
the store; the evaluation of one expression is supplied as the function
argument ev. -/
def evalArgsWith
    (ev : Value → List Frame → Except Err (Value × List Frame)) :
    List Value → List Frame → Except Err (List Value × List Frame)
  | [], s => .ok ([], s)
  | e :: es, s => do
    let (v, s1) ← ev e s
    let (vs, s2) ← evalArgsWith ev es s1
    .ok (v :: vs, s2)

/-- Python proc(*args): calling a Procedure instance runs
Procedure.__call__, which builds Env(self.params, args, self.env) — a
fresh frame whose outer pointer is the environment CAPTURED BY THE
CLOSURE (self.env), never the environment of the caller — and evaluates
the body there (the body evaluation is supplied as ev); calling a native
function dispatches to the builtin table; calling a partial object calls
the wrapped callable on the stored arguments followed by the new ones;
calling anything else raises TypeError. -/
def callProcWith
    (ev : Value → Nat → List Frame → Except Err (Value × List Frame)) :
    Value → List Value → List Frame → Except Err (Value × List Frame)
  | .closure parms body defId, args, s =>
    match zipBind parms args with
    | .error e => .error e
    | .ok bs => ev body s.length (s ++ [⟨bs, some defId⟩])
  | .builtin b, args, s => (applyBuiltin b args).map (fun v => (v, s))
  | .papply f pre, args, s => callProcWith ev f (pre ++ args) s
  | _, _, _ => .error (.typeError "object is not callable")

/-- evaluate from the source, one case per branch of its dispatch:

* a Symbol looks itself up via env.find(x)[x];
* any other non-list value evaluates to itself;
* a list dispatches on x[0] — reading x[0] from an EMPTY list raises
  IndexError (no evaluator branch guards the empty combination) — and
  compares it with each special-form keyword in source order, falling
  through to procedure application, which evaluates the operator, then
  every argument left to right, then performs the call;
* the if form unpacks exactly four components (ValueError otherwise,
  raised by the tuple unpacking before anything is evaluated), evaluates
  the test and then evaluates the chosen branch — chosen by PYTHON
  truthiness of the test value;
* quote returns its single component unevaluated;
* define evaluates the expression and writes the binding into the
  CURRENT frame, returning None;
* set! evaluates the expression first (assignment targets are evaluated
  after the right-hand side in Python), then asks env.find for the owning
  frame and overwrites the binding there, returning None;
* lambda builds a closure capturing the current frame by reference.

The store is the list of frames; envId is the current frame; fuel bounds
the recursion depth. -/
def evaluate : Nat → Value → Nat → List Frame → Except Err (Value × List Frame)
  | 0, _, _, _ => .error .outOfFuel
  | fuel + 1, x, envId, s =>
    match x with
    | .sym name => do
        let fid ← find s (fuel + 1) envId (.sym name)
        let v ← getItem s fid (.sym name)
        .ok (v, s)
    | .list l =>
      match l with
      | [] => .error .indexError
      | x0 :: rest =>
        if pyEqStr x0 "if" then
          match rest with
          | [test, conseq, alt] => do
              let (t, s1) ← evaluate fuel test envId s
              evaluate fuel (if truthy t then conseq else alt) envId s1
          | _ => .error .valueError
        else if pyEqStr x0 "quote" then
          match rest with
          | [e] => .ok (e, s)
          | _ => .error .valueError
        else if pyEqStr x0 "define" then
          match rest with
          | [var, e] => do
              let (val, s1) ← evaluate fuel e envId s
              let s2 ← setItem s1 envId var val
              .ok (.none, s2)
          | _ => .error .valueError
        else if pyEqStr x0 "set!" then
          match rest with
          | [var, e] => do
              let (val, s1) ← evaluate fuel e envId s
              let fid ← find s1 (fuel + 1) envId var
              let s2 ← setItem s1 fid var val
              .ok (.none, s2)
          | _ => .error .valueError
        else if pyEqStr x0 "lambda" then
          match rest with
          | [parms, body] => .ok (.closure parms body envId, s)
          | _ => .error .valueError
        else do
          let (proc, s1) ← evaluate fuel x0 envId s
          let (args, s2) ←
            evalArgsWith (fun e st => evaluate fuel e envId st) rest s1
          callProcWith (fun b eid st => evaluate fuel b eid st) proc args s2
    | other => .ok (other, s)

/-- Whether a value is one of the five keywords the dispatch recognises
before falling through to application, tested with the same comparison
the evaluator performs on x[0]. -/
def isSpecialForm (v : Value) : Bool :=
  pyEqStr v "if" || pyEqStr v "quote" || pyEqStr v "define" ||
    pyEqStr v "set!" || pyEqStr v "lambda"

/-- The bindings contributed by env.update(vars(math)): mathematical
constants (inexact, carried as literals) and native functions.
vars(math) contains further members (more functions, and dunder strings
such as the module name); they are omitted here and nothing below
depends on them. -/
def mathBindings : List (Value × Value) :=
  [ (.sym "pi", .float "3.141592653589793"),
    (.sym "e", .float "2.718281828459045"),
    (.sym "tau", .float "6.283185307179586"),
    (.sym "inf", .float "inf"),
    (.sym "nan", .float "nan"),
    (.sym "sqrt", .builtin .sqrt),
    (.sym "sin", .builtin .sin),
    (.sym "cos", .builtin .cos),
    (.sym "tan", .builtin .tan),
    (.sym "exp", .builtin .expOp),
    (.sym "log", .builtin .log),
    (.sym "floor", .builtin .floorOp),
    (.sym "ceil", .builtin .ceilOp),
    (.sym "pow", .builtin .powOp),
    (.sym "fabs", .builtin .fabs) ]

/-- standard_env from the source: an environment with the Scheme standard
procedures — the math members first, then the operator table, in source
order.  append is op.add and the arithmetic entries are the operator
module functions, so they share tags with +. -/
def standard_env : Frame :=
  ⟨ mathBindings ++
    [ (.sym "+", .builtin .add),
      (.sym "-", .builtin .sub),
      (.sym "*", .builtin .mul),
      (.sym "/", .builtin .div),
      (.sym ">", .builtin .gt),
      (.sym "<", .builtin .lt),
      (.sym ">=", .builtin .ge),
      (.sym "<=", .builtin .le),
      (.sym "=", .builtin .eqOp),
      (.sym "abs", .builtin .absOp),
      (.sym "append", .builtin .add),
      (.sym "apply", .builtin .applyOp),
      (.sym "begin", .builtin .beginOp),
      (.sym "car", .builtin .car),
      (.sym "cdr", .builtin .cdr),
      (.sym "cons", .builtin .cons),
      (.sym "eq?", .builtin .isOp),
      (.sym "equal?", .builtin .equalOp),
      (.sym "length", .builtin .lengthOp),
      (.sym "list", .builtin .listOp),
      (.sym "list?", .builtin .isListOp),
      (.sym "map", .builtin .mapOp),
      (.sym "max", .builtin .maxOp),
      (.sym "min", .builtin .minOp),
      (.sym "not", .builtin .notOp),
      (.sym "null?", .builtin .isNullOp),
      (.sym "number?", .builtin .isNumberOp),
      (.sym "procedure?", .builtin .isProcedureOp),
      (.sym "round", .builtin .roundOp),
      (.sym "symbol?", .builtin .isSymbolOp) ],
    Option.none ⟩

/-- GLOBAL_ENV from the source, as the initial store: the global frame at
index 0, with no outer frame. -/
def globalStore : List Frame := [standard_env]

/-- Runs a sequence of top-level expressions against the persistent
global environment, the way the REPL feeds one parsed line after another
to evaluate; the result is the value of the last expression together
with the final store. -/
def runSequence (fuel : Nat) : List Value → List Frame →
    Except Err (Value × List Frame)
  | [], s => .ok (.none, s)
  | [e], s => evaluate fuel e 0 s
  | e :: es, s => do
    let (_, s1) ← evaluate fuel e 0 s
    runSequence fuel es s1

/-- Runs a sequence of top-level expressions from the initial global
environment and keeps the value of the last one.  The fixed fuel is ample
for every program considered below. -/
def runProgram (es : List Value) : Except Err Value :=
  (runSequence 32 es globalStore).map Prod.fst

/-!  lispstr.  -/

/-- Which attribute names a runtime value carries: Procedure instances
carry the three attributes their __init__ sets; no other runtime value of
the interpreter carries any attribute relevant here.  In particular NO
runtime value has an attribute named List. -/
def hasAttr (v : Value) (name : String) : Bool :=
  match v with
  | .closure _ _ _ => name = "params" || name = "body" || name = "env"
  | _ => false

/-- lispstr from the source.  The condition reads
isinstance(exp. List) — with a dot where the comma belongs — so Python
first evaluates the attribute access exp.List, which raises
AttributeError for every runtime value (none has an attribute List); had
any value carried one, the call isinstance(value) with a single argument
would itself raise TypeError.  The function therefore raises on every
input and never renders anything. -/
def lispstr (exp : Value) : Except Err String :=
  if hasAttr exp "List" then .error (.typeError "isinstance expected 2 arguments")
  else .error (.attributeError "object has no attribute List")

/-!  Host-level model of Python list objects, for the aliasing behaviour
of cons.  A heap is a list of list objects addressed by index; reading an
absent address yields the empty list (never exercised). -/

/-- Reads the list object at an address of the heap. -/
def heapGet (h : List (List Value)) (i : Nat) : List Value :=
  (h[i]?).getD []

/-- The builtin cons, lambda x, y: [x] + y, at the host level: list
concatenation ALLOCATES A NEW list object whose elements are x followed
by a shallow copy of the elements of the object at address yid; the
result is the new heap and the address of the fresh object.  The fresh
object holds no reference to the object at yid. -/
def consAlloc (h : List (List Value)) (x : Value) (yid : Nat) :
    List (List Value) × Nat :=
  (h ++ [x :: heapGet h yid], h.length)

/-- In-place replacement of the contents of the list object at an
address, the observable effect of any Python mutation of that object. -/
def heapSet (h : List (List Value)) (i : Nat) (l : List Value) :
    List (List Value) :=
  h.set i l

/-- Substring test on strings, used to state whether an error message
mentions a variable name. -/
def containsSub (hay needle : List Char) : Bool :=
  needle.isPrefixOf hay ||
    match hay with
    | [] => false
    | _ :: t => containsSub t needle

/-- Whether an error names the given symbol anywhere in its message. -/
def errMentions (e : Err) (name : String) : Bool :=
  match e.message with
  | some m => containsSub m.toList name.toList
  | Option.none => false

/-!  Helper lemmas shared by the claim theorems.  -/

/-- Env.find on a chain that nowhere binds the symbol raises the
AttributeError of the call find on the outer pointer None. -/
theorem find_absent (s : List Frame) :
    ∀ (fuel envId : Nat) (name : String),
      chainAbsent s fuel envId (.sym name) = true →
      find s fuel envId (.sym name) = .error (.attributeError findNoneMsg) := by
  intro fuel
  induction fuel with
  | zero => intro envId name h; simp [chainAbsent] at h
  | succ n ih =>
    intro envId name h
    unfold chainAbsent at h
    unfold find
    cases hg : s[envId]? with
    | none => rw [hg] at h; simp at h
    | some fr =>
      rw [hg] at h
      simp only [Bool.and_eq_true] at h
      obtain ⟨h1, h2⟩ := h
      have hpresent : pyContains fr.bindings (.sym name) = .ok false := by
        simp [pyContains, hashable, Option.isNone_iff_eq_none.mp h1]
      simp only [hpresent]
      cases ho : fr.outer with
      | none => rfl
      | some o =>
        rw [ho] at h2
        show find s n o (.sym name) = _
        exact ih o name h2

/-- Appending one element and reading at the old length yields it. -/
theorem getElem_concat_self {α : Type} (l : List α) (a : α) :
    (l ++ [a])[l.length]? = some a := by
  induction l with
  | nil => rfl
  | cons hd tl ih =>
    simp only [List.cons_append, List.length_cons, List.getElem?_cons_succ]
    exact ih

/-- Setting an index inside the prefix commutes with appending. -/
theorem set_append_left {α : Type} (l : List α) (c : α) (i : Nat) (x : α)
    (h : i < l.length) : (l ++ [c]).set i x = l.set i x ++ [c] := by
  induction l generalizing i with
  | nil => exact absurd h (Nat.not_lt_zero i)
  | cons hd tl ih =>
    cases i with
    | zero => rfl
    | succ n =>
      simp only [List.cons_append, List.set]
      exact congrArg (hd :: ·) (ih n (Nat.lt_of_succ_lt_succ h))

/-!  The claims.  -/

/-- C1 (corrected).  The evaluation of (if test conseq alt) selects the
branch by PYTHON truthiness of the value of test, not by a single false
sentinel: after the test evaluates, the if form continues with conseq
exactly when the value is truthy, and 0 and the empty list are falsy, so
(if 0 a b) and (if (quote ()) a b) both evaluate b — refuting the claim
that they evaluate a (see the counterexample). -/
theorem claim_c1 (fuel : Nat) (test conseq alt : Value) (envId : Nat)
    (s : List Frame) (t : Value) (s1 : List Frame)
    (h : evaluate fuel test envId s = .ok (t, s1)) :
    evaluate (fuel + 1) (.list [.sym "if", test, conseq, alt]) envId s =
      evaluate fuel (if truthy t then conseq else alt) envId s1 := by
  have base : evaluate (fuel + 1) (.list [.sym "if", test, conseq, alt]) envId s =
      (evaluate fuel test envId s).bind
        (fun p => evaluate fuel (if truthy p.1 then conseq else alt) envId p.2) := rfl
  rw [base, h]
  rfl

/-- C1 witness: the conditional equation applied at the concrete program
(if 0 1 2) in the global environment. -/
theorem claim_c1_witness :
    evaluate 4 (.list [.sym "if", .int 0, .int 1, .int 2]) 0 globalStore =
      evaluate 3 (if truthy (.int 0) then .int 1 else .int 2) 0 globalStore :=
  claim_c1 3 (.int 0) (.int 1) (.int 2) 0 globalStore (.int 0) globalStore rfl

/-- C1 counterexample: (if 0 1 2) and (if (quote ()) 1 2) both evaluate
the ALTERNATE 2, not the consequent 1 as the claim states, because 0 and
the empty list are falsy under the host truthiness the code uses. -/
theorem claim_c1_counterexample :
    runProgram [.list [.sym "if", .int 0, .int 1, .int 2]] = .ok (.int 2) ∧
    runProgram [.list [.sym "if", .list [.sym "quote", .list []],
      .int 1, .int 2]] = .ok (.int 2) ∧
    (Except.ok (Value.int 2) : Except Err Value) ≠ .ok (.int 1) := by
  refine ⟨rfl, rfl, ?_⟩
  intro hh
  injection hh with h1
  injection h1 with h2
  exact absurd h2 (by decide)

/-- C2 (confirmed).  Applying a Closure builds a call frame whose outer
pointer is the environment CAPTURED BY THE CLOSURE (the defId stored in
the closure value), independent of the environment of the caller (the
call has no access to it); consequently the program
(define f (lambda (x) (lambda (y) (+ x y)))) followed by ((f 3) 4)
evaluates to 7. -/
theorem claim_c2 :
    (∀ (ev : Value → Nat → List Frame → Except Err (Value × List Frame))
        (parms body : Value) (defId : Nat) (args : List Value)
        (s : List Frame) (bs : List (Value × Value)),
        zipBind parms args = .ok bs →
        callProcWith ev (.closure parms body defId) args s =
          ev body s.length (s ++ [⟨bs, some defId⟩])) ∧
    runProgram
      [ .list [.sym "define", .sym "f",
          .list [.sym "lambda", .list [.sym "x"],
            .list [.sym "lambda", .list [.sym "y"],
              .list [.sym "+", .sym "x", .sym "y"]]]],
        .list [.list [.sym "f", .int 3], .int 4] ] = .ok (.int 7) := by
  constructor
  · intro ev parms body defId args s bs h
    unfold callProcWith
    rw [h]
  · rfl

/-- C2 witness: the call-frame equation applied to a concrete closure
and argument in the global store. -/
theorem claim_c2_witness :
    callProcWith (fun b eid st => evaluate 3 b eid st)
      (.closure (.list [.sym "x"]) (.sym "x") 0) [.int 9] globalStore =
      evaluate 3 (.sym "x") 1 (globalStore ++ [⟨[(.sym "x", .int 9)], some 0⟩]) :=
  claim_c2.1 _ _ _ _ _ _ _ rfl

/-- C3 (corrected).  parse raises SyntaxError on an empty token stream
and on an unmatched close parenthesis, but input that ends before a
matching close parenthesis, such as (+ 1 2, raises IndexError — the
re-check of tokens[0] in the collection loop subscripts an exhausted
list before the E0F guard can fire. -/
theorem claim_c3 :
    (∀ text : String, tokenize text = [] →
        parse text = .error (.syntaxError eofMsg)) ∧
    parse ")" = .error (.syntaxError "unexpected )") ∧
    parse "(+ 1 2" = .error .indexError := by
  refine ⟨?_, rfl, rfl⟩
  intro text h
  unfold parse
  rw [h]
  rfl

/-- C3 witness: the empty-stream case applied to the empty input. -/
theorem claim_c3_witness : parse "" = .error (.syntaxError eofMsg) :=
  claim_c3.1 "" rfl

/-- C3 counterexample: on the unbalanced input (+ 1 2 the parser raises
IndexError, which is not of the SyntaxError kind the claim requires. -/
theorem claim_c3_counterexample :
    parse "(+ 1 2" = .error .indexError ∧
    Err.isSyntaxKind .indexError = false := ⟨rfl, rfl⟩

/-- C4 (corrected).  For a name absent from every frame of the chain,
both a plain lookup and (set! name expr) fail — but with the host
AttributeError raised by calling find on the outer pointer None, a fixed
error that does not name the offending symbol (and set! raises it only
after the right-hand side has been evaluated, since Python evaluates the
assignment target after the value). -/
theorem claim_c4 :
    (∀ (fuel envId : Nat) (s : List Frame) (name : String),
        chainAbsent s (fuel + 1) envId (.sym name) = true →
        evaluate (fuel + 1) (.sym name) envId s =
          .error (.attributeError findNoneMsg)) ∧
    (∀ (fuel envId : Nat) (s s1 : List Frame) (name : String) (e val : Value),
        evaluate fuel e envId s = .ok (val, s1) →
        chainAbsent s1 (fuel + 1) envId (.sym name) = true →
        evaluate (fuel + 1) (.list [.sym "set!", .sym name, e]) envId s =
          .error (.attributeError findNoneMsg)) := by
  constructor
  · intro fuel envId s name h
    have base : evaluate (fuel + 1) (.sym name) envId s =
        (find s (fuel + 1) envId (.sym name)).bind
          (fun fid => (getItem s fid (.sym name)).bind
            (fun v => .ok (v, s))) := rfl
    rw [base, find_absent s (fuel + 1) envId name h]
    rfl
  · intro fuel envId s s1 name e val hev h
    have base : evaluate (fuel + 1) (.list [.sym "set!", .sym name, e]) envId s =
        (evaluate fuel e envId s).bind
          (fun p => (find p.2 (fuel + 1) envId (.sym name)).bind
            (fun fid => (setItem p.2 fid (.sym name) p.1).bind
              (fun s2 => .ok (.none, s2)))) := rfl
    rw [base, hev]
    show (find s1 (fuel + 1) envId (.sym name)).bind _ = _
    rw [find_absent s1 (fuel + 1) envId name h]
    rfl

/-- C4 witness: lookup of the undefined symbol zz and the assignment
(set! zz 1), both in the global environment. -/
theorem claim_c4_witness :
    evaluate 3 (.sym "zz") 0 globalStore =
      .error (.attributeError findNoneMsg) ∧
    evaluate 3 (.list [.sym "set!", .sym "zz", .int 1]) 0 globalStore =
      .error (.attributeError findNoneMsg) :=
  ⟨claim_c4.1 2 0 globalStore "zz" rfl,
   claim_c4.2 2 0 globalStore globalStore "zz" (.int 1) (.int 1) rfl rfl⟩

/-- C4 counterexample: (set! zz 1) and the lookup of zz on an undefined
zz fail with the AttributeError about NoneType, an error that does not
mention the symbol zz, and the identical error is raised for the
distinct symbol qq — so no error of an unbound-variable kind naming the
offending symbol is raised. -/
theorem claim_c4_counterexample :
    runProgram [.list [.sym "set!", .sym "zz", .int 1]] =
      .error (.attributeError findNoneMsg) ∧
    runProgram [.sym "zz"] = .error (.attributeError findNoneMsg) ∧
    runProgram [.list [.sym "set!", .sym "qq", .int 1]] =
      .error (.attributeError findNoneMsg) ∧
    errMentions (.attributeError findNoneMsg) "zz" = false :=
  ⟨rfl, rfl, rfl, rfl⟩

/-- C5 (corrected).  Invoking a Closure with a wrong argument count does
NOT fail: Env builds the call frame with zip(parms, args), which silently
truncates at the shorter list, so a one-parameter closure applied to two
arguments binds the parameter to the first argument and ignores the
second; concretely ((lambda (x) x) 1 2) evaluates to 1 with no
ArityError of any kind. -/
theorem claim_c5 :
    (∀ (ev : Value → Nat → List Frame → Except Err (Value × List Frame))
        (p : String) (body : Value) (defId : Nat) (a1 a2 : Value)
        (s : List Frame),
        callProcWith ev (.closure (.list [.sym p]) body defId) [a1, a2] s =
          ev body s.length (s ++ [⟨[(.sym p, a1)], some defId⟩])) ∧
    runProgram [.list [.list [.sym "lambda", .list [.sym "x"], .sym "x"],
      .int 1, .int 2]] = .ok (.int 1) :=
  ⟨fun _ _ _ _ _ _ _ => rfl, rfl⟩

/-- C5 counterexample: the one-parameter closure applied to two
arguments succeeds with the value of its first argument, so no
ArityError (indeed no error at all) is raised. -/
theorem claim_c5_counterexample :
    runProgram [.list [.list [.sym "lambda", .list [.sym "x"], .sym "x"],
      .int 1, .int 2]] = .ok (.int 1) ∧
    (Except.ok (Value.int 1) : Except Err Value).isOk = true := ⟨rfl, rfl⟩

/-- C6 (corrected).  An if form whose keyword is followed by any number
of elements other than 3 does fail before evaluating anything — but with
the host ValueError raised by the tuple unpacking
(_, test, conseq, alt) = x, not with any MalformedForm error kind (the
code has no such kind; the ValueError carries no information about the
form). -/
theorem claim_c6 (fuel : Nat) (rest : List Value) (envId : Nat)
    (s : List Frame) (h : rest.length ≠ 3) :
    evaluate (fuel + 1) (.list (.sym "if" :: rest)) envId s =
      .error .valueError := by
  rcases rest with _ | ⟨a, _ | ⟨b, _ | ⟨c, _ | ⟨d, tl⟩⟩⟩⟩
  · rfl
  · rfl
  · rfl
  · exact absurd rfl h
  · rfl

/-- C6 witness: the malformed form (if 1 2) in the global environment. -/
theorem claim_c6_witness :
    evaluate 5 (.list [.sym "if", .int 1, .int 2]) 0 globalStore =
      .error .valueError :=
  claim_c6 4 [.int 1, .int 2] 0 globalStore (by decide)

/-- C6 counterexample: (if 1 2) fails with the bare host ValueError,
which carries no message at all, rather than a MalformedForm error
kind. -/
theorem claim_c6_counterexample :
    runProgram [.list [.sym "if", .int 1, .int 2]] = .error .valueError ∧
    Err.message .valueError = Option.none := ⟨rfl, rfl⟩

/-- C7 (corrected).  An application evaluates the operator position
first, but then evaluates EVERY remaining element left to right before
any callable check: only the invocation proc(*args) raises — the host
TypeError — when the operator value is not callable.  The claim that a
NotCallable failure precedes argument evaluation is refuted by the
counterexample. -/
theorem claim_c7 :
    (∀ (fuel : Nat) (x0 : Value) (rest : List Value) (envId : Nat)
        (s s1 s2 : List Frame) (proc : Value) (args : List Value),
        isSpecialForm x0 = false →
        evaluate fuel x0 envId s = .ok (proc, s1) →
        evalArgsWith (fun e st => evaluate fuel e envId st) rest s1 =
          .ok (args, s2) →
        evaluate (fuel + 1) (.list (x0 :: rest)) envId s =
          callProcWith (fun b eid st => evaluate fuel b eid st) proc args s2) ∧
    (∀ (fuel : Nat) (proc : Value) (args : List Value) (s : List Frame),
        isCallable proc = false →
        callProcWith (fun b eid st => evaluate fuel b eid st) proc args s =
          .error (.typeError "object is not callable")) := by
  constructor
  · intro fuel x0 rest envId s s1 s2 proc args hs hev hargs
    simp only [isSpecialForm, Bool.or_eq_false_iff] at hs
    obtain ⟨⟨⟨⟨h1, h2⟩, h3⟩, h4⟩, h5⟩ := hs
    show (if pyEqStr x0 "if" then _ else _) = _
    rw [h1, h2, h3, h4, h5]
    show (evaluate fuel x0 envId s).bind _ = _
    rw [hev]
    show (evalArgsWith _ rest s1).bind _ = _
    rw [hargs]
    rfl
  · intro fuel proc args s h
    cases proc <;> first | rfl | exact Bool.noConfusion h

/-- C7 witness: the application (7 8) evaluates the operator 7 and the
argument 8 and only then fails at the invocation, with the host
TypeError. -/
theorem claim_c7_witness :
    (evaluate 3 (.list [.int 7, .int 8]) 0 globalStore =
      callProcWith (fun b eid st => evaluate 2 b eid st) (.int 7) [.int 8]
        globalStore) ∧
    callProcWith (fun b eid st => evaluate 2 b eid st) (.int 7) [.int 8]
      globalStore = .error (.typeError "object is not callable") :=
  ⟨claim_c7.1 2 (.int 7) [.int 8] 0 globalStore globalStore globalStore
      (.int 7) [.int 8] rfl rfl rfl,
   claim_c7.2 2 (.int 7) [.int 8] globalStore rfl⟩

/-- C7 counterexample: in (7 zz) the operator 7 is not callable, yet the
reported failure is the AttributeError produced by evaluating the
argument zz — the arguments are evaluated before any callable check, and
the failure that a bare non-callable operator does produce, as in (7 8),
is the host TypeError. -/
theorem claim_c7_counterexample :
    runProgram [.list [.int 7, .sym "zz"]] =
      .error (.attributeError findNoneMsg) ∧
    runProgram [.list [.int 7, .int 8]] =
      .error (.typeError "object is not callable") := ⟨rfl, rfl⟩

/-- C8 (corrected).  The cons builtin computes [x] + y, which allocates
a FRESH list object: its address is new (not the address of y), its
contents are x followed by a copy of the elements of y, and replacing
the contents of y afterwards leaves the cons result unchanged — the
result does not hold y as its tail, refuting observable tail sharing. -/
theorem claim_c8 (h : List (List Value)) (x : Value) (yid : Nat)
    (hy : yid < h.length) :
    (consAlloc h x yid).2 ≠ yid ∧
    heapGet (consAlloc h x yid).1 (consAlloc h x yid).2 =
      x :: heapGet h yid ∧
    ∀ l2, heapGet (heapSet (consAlloc h x yid).1 yid l2)
        (consAlloc h x yid).2 = x :: heapGet h yid := by
  refine ⟨by simpa [consAlloc] using Nat.ne_of_gt hy, ?_, ?_⟩
  · show heapGet (h ++ [x :: heapGet h yid]) h.length = x :: heapGet h yid
    unfold heapGet
    rw [getElem_concat_self]
    rfl
  · intro l2
    show heapGet (heapSet (h ++ [x :: heapGet h yid]) yid l2) h.length =
      x :: heapGet h yid
    unfold heapSet
    rw [set_append_left h _ yid l2 hy]
    unfold heapGet
    have hlen : (h.set yid l2).length = h.length := List.length_set h yid l2
    rw [← hlen, getElem_concat_self]
    rfl

/-- C8 witness: a one-object heap holding y = (2); cons of 1 onto it,
then replacement of the contents of y, leaves the cons result (1 2)
unchanged. -/
theorem claim_c8_witness :
    heapGet (heapSet (consAlloc [[Value.int 2]] (.int 1) 0).1 0 [.int 9])
      (consAlloc [[Value.int 2]] (.int 1) 0).2 =
      .int 1 :: heapGet [[Value.int 2]] 0 :=
  (claim_c8 [[Value.int 2]] (.int 1) 0 (by decide)).2.2 [.int 9]

/-- C8 counterexample: with y = (2 3) at address 0, cons allocates the
result at the distinct address 1 with contents (1 2 3); replacing the
contents of y by (9) leaves the result (1 2 3), although under the
claimed tail sharing the result would now read (1 9). -/
theorem claim_c8_counterexample :
    (consAlloc [[Value.int 2, .int 3]] (.int 1) 0).2 = 1 ∧
    heapGet (consAlloc [[Value.int 2, .int 3]] (.int 1) 0).1 1 =
      [.int 1, .int 2, .int 3] ∧
    heapGet (heapSet (consAlloc [[Value.int 2, .int 3]] (.int 1) 0).1 0
      [.int 9]) 1 = [.int 1, .int 2, .int 3] ∧
    ([Value.int 1, .int 2, .int 3] ≠ [Value.int 1, .int 9]) := by
  refine ⟨rfl, rfl, rfl, ?_⟩
  intro hh
  have := congrArg List.length hh
  simp at this

/-- C9 (code_bug).  Stringification never renders anything: the source
line if isinstance(exp. List): accesses the attribute List on exp (a
typo for the two-argument isinstance call), and no runtime value carries
an attribute named List, so lispstr raises AttributeError on every
input instead of producing the text the claim (and the docstring of the
function itself) describes. -/
theorem claim_c9 (v : Value) :
    lispstr v = .error (.attributeError "object has no attribute List") := by
  cases v <;> rfl

/-- C10 (confirmed).  parse accepts the empty parenthesized sequence ()
and returns the empty List value, and no evaluator branch handles that
value: evaluating the empty list reads x[0] and raises IndexError at any
fuel, in any environment. -/
theorem claim_c10 :
    parse "()" = .ok (.list []) ∧
    ∀ (fuel envId : Nat) (s : List Frame),
      evaluate (fuel + 1) (.list []) envId s = .error .indexError :=
  ⟨rfl, fun _ _ _ => rfl⟩

end Lispy
